import Mathlib

/-!
Verification of the Nebular Cassini quiz bot's session/quiz/progress core.

This file shallowly embeds the Python sources under `src/bot/` (the CRUD
layer `database/crud.py`, the quiz and game handlers
`handlers/quiz_handler.py` / `handlers/game_handler.py`, the navigation
helpers `handlers/navigation.py`, and the lock evaluator
`utils/lock_manager.py`) as executable Lean definitions, and proves or
refutes the specification's claims about them.

Conventions of the embedding:
* Python floats that only ever hold exact decimal values (accuracies,
  wall-clock seconds) are modelled as rationals `ℚ`.
* A Python function that can raise an uncaught exception is modelled with
  an explicit `raised` outcome (or `Option`/`Except`); `None`-able dict
  keys become `Option` fields.
* Database rows are modelled as Lean structures, tables as lists of rows,
  and the SQLAlchemy session as explicit state passing.
-/

namespace NebularCassini

/-! ## Python string helpers used by the sources -/

/-- Python `str.isdigit()` restricted to ASCII digits: true on a non-empty
all-digit string. -/
def pyIsDigit (s : String) : Bool :=
  !s.toList.isEmpty && s.toList.all Char.isDigit

/-- Contiguous-sublist (substring) test on character lists. -/
def charsInfixOf (needle : List Char) : List Char → Bool
  | [] => needle.isEmpty
  | c :: rest => needle.isPrefixOf (c :: rest) || charsInfixOf needle rest

/-- Python `needle in haystack` substring test. -/
def pySubstr (needle haystack : String) : Bool :=
  charsInfixOf needle.toList haystack.toList

/-- Python `s.startswith(pre)`. -/
def pyStartswith (pre s : String) : Bool :=
  pre.toList.isPrefixOf s.toList

/-- Character-list core of `str.split(sep)` for a non-empty separator,
with explicit fuel (one unit per consumed character). -/
def splitChars (sep : List Char) : Nat → List Char → List Char →
    List (List Char)
  | 0, _, acc => [acc.reverse]
  | _ + 1, [], acc => [acc.reverse]
  | fuel + 1, c :: cs, acc =>
    if sep.isPrefixOf (c :: cs) then
      acc.reverse :: splitChars sep fuel ((c :: cs).drop sep.length) []
    else splitChars sep fuel cs (c :: acc)

/-- Python `s.split(sep)` (non-empty separator; keeps empty parts). -/
def pySplit (sep s : String) : List String :=
  (splitChars sep.toList (s.toList.length + 1) s.toList []).map List.asString

/-- Character-list core of `str.replace(old, new)` (non-empty `old`;
left-to-right, non-overlapping), with explicit fuel. -/
def replaceChars (old new : List Char) : Nat → List Char → List Char
  | 0, cs => cs
  | _ + 1, [] => []
  | fuel + 1, c :: cs =>
    if old.isPrefixOf (c :: cs) then
      new ++ replaceChars old new fuel ((c :: cs).drop old.length)
    else c :: replaceChars old new fuel cs

/-- Python `s.replace(old, new)`. -/
def pyReplace (s old new : String) : String :=
  (replaceChars old.toList new.toList (s.toList.length + 1) s.toList).asString

/-- Python `s.strip()`: drop surrounding whitespace. -/
def pyStrip (s : String) : String :=
  (((s.toList.dropWhile Char.isWhitespace).reverse.dropWhile
    Char.isWhitespace).reverse).asString

/-- Decimal value of a digit string. -/
def charsToNat : List Char → Nat → Nat
  | [], acc => acc
  | c :: cs, acc => charsToNat cs (acc * 10 + (c.toNat - 48))

/-- Python `int(s)` on a string: strips surrounding whitespace and parses a
digit string; `none` models the `ValueError` raise. (The sources never pass
signed literals here.) -/
def pyInt (s : String) : Option Int :=
  let t := pyStrip s
  if pyIsDigit t then some (charsToNat t.toList 0 : Int) else none

/-- Python `s.upper()`. -/
def pyUpper (s : String) : String :=
  (s.toList.map Char.toUpper).asString

/-- Python `int(q)` truncation toward zero on a float, modelled on `ℚ`. -/
def pyIntOfRat (q : ℚ) : Int :=
  if 0 ≤ q then ⌊q⌋ else ⌈q⌉

/-- Python `str.title()` character-wise: uppercase the first letter of each
alphabetic run, lowercase the rest. -/
def pyTitleAux : List Char → Bool → List Char
  | [], _ => []
  | c :: cs, prevAlpha =>
    let c2 := if c.isAlpha then (if prevAlpha then c.toLower else c.toUpper) else c
    c2 :: pyTitleAux cs c.isAlpha

def pyTitle (s : String) : String :=
  (pyTitleAux s.toList false).asString

/-! ## Data model (`database/models.py`) -/

/-- One question as loaded from the question-bank JSON
(`utils/question_engine.py` contract, §6 of the spec). `answer` mirrors the
alternative JSON key consulted by `game_handler.handle_game_answer`. -/
structure Question where
  question_id : String
  question : String := ""
  options : List (String × String) := []
  correct_answer : String
  answer : Option String := none
  explanation : Option String := none
  source_unit : Option String := none
  deriving Repr, DecidableEq

/-- One entry of the `history` list inside `quiz_state`
(`quiz_handler.handle_answer_selection` / `skip_question`). -/
structure HistoryEntry where
  q_id : String
  selected : String
  correct : String
  is_correct : Bool
  deriving Repr, DecidableEq

/-- The `quiz_state` JSON blob embedded in a `Session` row. `mode` is absent
(`none`) for standard unit quizzes and the review variants; it carries
"SPEEDRUN" / "SURVIVAL" / "CHALLENGE" for the game modes. `duration` and
`start_time` are only ever written and read for SPEEDRUN states; they
default to 0 here to mirror the keys simply being absent otherwise. -/
structure QuizState where
  mode : Option String := none
  subject_code : String := ""
  subject : String := ""
  grade : String := ""
  unit : String := ""
  unit_title : String := ""
  unit_id : String := ""
  questions : List Question := []
  current_index : Nat := 0
  score : Nat := 0
  history : List HistoryEntry := []
  last_feedback : String := "🎮"
  duration : ℚ := 0
  start_time : ℚ := 0
  deriving Repr, DecidableEq

/-- A `progress` table row. Column defaults follow `models.py`. -/
structure Progress where
  user_id : Nat
  unit_id : String
  subject : String := ""
  grade : Int := 9
  current_phase : String := "BASELINE"
  baseline_accuracy : ℚ := 0
  balanced_accuracy : ℚ := 0
  exam_accuracy : ℚ := 0
  questions_attempted : Nat := 0
  questions_correct : Nat := 0
  completion_percent : ℚ := 0
  unlocked_balanced : Bool := false
  unlocked_exam : Bool := false
  deriving Repr, DecidableEq

/-- A `review_queue` table row. `added_at` is a timestamp, modelled as `ℚ`. -/
structure ReviewItem where
  user_id : Nat
  question_id : String
  status : String
  subject : String := ""
  grade : Int := 9
  unit : String := ""
  added_at : ℚ := 0
  deriving Repr, DecidableEq

/-- A `system_locks` table row (audit fields omitted; never read by the
evaluator). -/
structure SystemLock where
  lock_type : String
  lock_target : String
  is_locked : Bool
  deriving Repr, DecidableEq

/-- The slice of a `users` row read by the lock evaluator. -/
structure UserRow where
  id : Int
  current_grade : Int := 9
  deriving Repr, DecidableEq

/-! ## Progress tracker (`database/crud.py`) -/

/-- `config.PHASE_UNLOCK_THRESHOLD`. -/
def PHASE_UNLOCK_THRESHOLD : ℚ := 80

/-- `crud.update_phase_progress`: sets the named phase's accuracy, unlocks
the next phase when the accuracy meets the threshold, and recomputes
`current_phase` as the highest unlocked phase. `existing` is the row found
for `(user_id, unit_id)`, if any; a fresh row is created otherwise. -/
def update_phase_progress (existing : Option Progress) (user_id : Nat)
    (unit_id subject : String) (grade : Int) (phase : String)
    (accuracy : ℚ) : Progress :=
  let p := existing.getD
    { user_id := user_id, unit_id := unit_id, subject := subject,
      grade := grade, current_phase := "BASELINE" }
  let p :=
    if phase = "BASELINE" then
      { p with baseline_accuracy := accuracy,
               unlocked_balanced :=
                 if accuracy ≥ PHASE_UNLOCK_THRESHOLD then true
                 else p.unlocked_balanced }
    else if phase = "BALANCED" then
      { p with balanced_accuracy := accuracy,
               unlocked_exam :=
                 if accuracy ≥ PHASE_UNLOCK_THRESHOLD then true
                 else p.unlocked_exam }
    else if phase = "EXAM_BIASED" then
      { p with exam_accuracy := accuracy }
    else p
  { p with current_phase :=
      if p.unlocked_exam then "EXAM_BIASED"
      else if p.unlocked_balanced then "BALANCED"
      else "BASELINE" }

/-- The "highest unlocked phase" as recomputed at the end of
`update_phase_progress`. -/
def phaseOfFlags (unlocked_balanced unlocked_exam : Bool) : String :=
  if unlocked_exam then "EXAM_BIASED"
  else if unlocked_balanced then "BALANCED"
  else "BASELINE"

/-! ## Quiz handler (`handlers/quiz_handler.py`)

The handlers load `quiz_state` from the session row (`none` when the column
is NULL / the JSON is empty), mutate it, and write it back; we model each
handler as a function from the loaded state to its outcome, carrying the
state that is written back plus the database side effects the claims talk
about (XP awards, review-queue operations). -/

/-- The grade parse used at the review-queue call sites
(`handle_answer_selection` line 206, `skip_question` line 287):
`int(g.split(" ")[1]) if " " in g else int(g) if g.isdigit() else 9`.
`none` models an uncaught `ValueError`. -/
def gradeForReview (g : String) : Option Int :=
  if pySubstr " " g then ((pySplit " " g).get? 1).bind pyInt
  else if pyIsDigit g then pyInt g
  else some 9

/-- The grade parse used by `show_quiz_summary` (line 330):
`int(g.split(" ")[1]) if "Grade" in g else 9`. `none` models an uncaught
`IndexError`/`ValueError`. -/
def gradeForSummary (g : String) : Option Int :=
  if pySubstr "Grade" g then ((pySplit " " g).get? 1).bind pyInt
  else some 9

/-- Outcome of `present_question`. -/
inductive PresentOutcome
  | toHub                 -- no quiz_state → navigate_to SCR_HUB
  | summary               -- current_index out of range → show_quiz_summary
  | shows (q : Question)  -- renders SCR_QUIZ_PRES for this question
  deriving Repr, DecidableEq

/-- `quiz_handler.present_question`: redirects home without quiz state,
treats an out-of-range `current_index` as completion, otherwise renders the
current question. -/
def present_question (qs : Option QuizState) : PresentOutcome :=
  match qs with
  | none => .toHub
  | some s =>
    match s.questions.get? s.current_index with
    | none => .summary
    | some q => .shows q

/-- Effects of `handle_answer_selection` on its standard (non-game) path. -/
structure StdAnswer where
  /-- the quiz_state written back to the session -/
  state : QuizState
  /-- amount passed to `add_xp` (10 per correct answer, 0 otherwise) -/
  xp : Nat
  /-- the `correct` argument passed to `record_quiz_attempt` -/
  attempt_correct : Bool
  /-- `remove_from_review_queue` was called (mastery) -/
  review_removed : Bool
  /-- status handed to `add_to_review_queue`, if any -/
  review_added : Option String
  deriving Repr, DecidableEq

/-- Outcome of `handle_answer_selection`. -/
inductive StdOutcome
  | noop                    -- `if not quiz_state: return`
  | raised                  -- uncaught IndexError / ValueError
  | toGame                  -- delegated to `game_handler.handle_game_answer`
  | answered (a : StdAnswer)
  deriving Repr, DecidableEq

/-- `quiz_handler.handle_answer_selection`: diverts SPEEDRUN/SURVIVAL states
to the game handler; otherwise grades the current question, records the
attempt, updates the review queue, appends to `history` (without touching
`current_index`), and — for CHALLENGE states — refreshes `last_feedback`.
Note there is no bounds check before `quiz_state["questions"][idx]`. -/
def handle_answer_selection (qs : Option QuizState) (selected_opt : String) :
    StdOutcome :=
  match qs with
  | none => .noop
  | some s =>
    if s.mode = some "SPEEDRUN" ∨ s.mode = some "SURVIVAL" then .toGame
    else
      match s.questions.get? s.current_index with
      | none => .raised
      | some q =>
        let correct_opt := q.correct_answer
        let is_correct := selected_opt == correct_opt
        -- record_quiz_attempt's own grade parse sits in try/except: no raise
        let withEffects : QuizState → Nat → Bool → Option String → StdOutcome :=
          fun s2 xp removed added =>
            let s3 := { s2 with history := s2.history ++
              [({ q_id := q.question_id, selected := selected_opt,
                  correct := correct_opt, is_correct := is_correct } :
                HistoryEntry)] }
            let s4 :=
              if s3.mode = some "CHALLENGE" then
                { s3 with last_feedback := if is_correct then "✅" else "❌" }
              else s3
            .answered ⟨s4, xp, is_correct, removed, added⟩
        if is_correct then
          withEffects { s with score := s.score + 1 } 10 true none
        else
          match gradeForReview s.grade with
          | none => .raised      -- add_to_review_queue grade parse raises
          | some _ => withEffects s 0 false (some "MISTAKE")

/-- Outcome of `skip_question`. -/
inductive SkipOutcome
  | noop
  | summary                 -- "[FIX] Crash protection": stale index
  | raised                  -- ValueError in the review-queue grade parse
  | advanced (state : QuizState)
  deriving Repr, DecidableEq

/-- `quiz_handler.skip_question`: guards a stale `current_index` (treated as
completion), logs a SKIP history entry, adds the question to the review
queue as SKIPPED and advances the index. -/
def skip_question (qs : Option QuizState) : SkipOutcome :=
  match qs with
  | none => .noop
  | some s =>
    match s.questions.get? s.current_index with
    | none => .summary
    | some q =>
      let s2 := { s with history := s.history ++
        [({ q_id := q.question_id, selected := "SKIP",
            correct := q.correct_answer, is_correct := false } : HistoryEntry)] }
      match gradeForReview s.grade with
      | none => .raised
      | some _ => .advanced { s2 with current_index := s2.current_index + 1 }

/-- `quiz_handler.next_question`: the explicit "next" request; increments
`current_index` by one and re-presents (no bounds check here; the follow-up
`present_question` handles completion). -/
def next_question (qs : Option QuizState) : Option QuizState :=
  qs.map fun s => { s with current_index := s.current_index + 1 }

/-- The variable bag assembled by `show_quiz_summary`, restricted to the
fields the claims mention, plus the progress row it writes. -/
structure SummaryVars where
  progress : Progress
  accuracy : ℚ
  curr_phase : String
  /-- `int(accuracy / 10) * 10` — display-only (`xp_reward`); the summary
  performs no `add_xp` call -/
  xp_reward : Int
  skipped : Nat
  target_screen : String
  deriving Repr, DecidableEq

/-- Outcome of `show_quiz_summary`. -/
inductive SummaryOutcome
  | noop
  | gameSummary (reason : String)   -- CHALLENGE → show_game_summary
  | raised                          -- ZeroDivisionError / grade parse raise
  | standard (v : SummaryVars)
  deriving Repr, DecidableEq

/-- `quiz_handler.show_quiz_summary`: computes the batch accuracy, derives
the informational phase for this batch, invokes `update_phase_progress`
with that derived phase, and builds the summary screen variables. (It also
calls `update_user_streak`, which touches only the users row.)
`existing` is the progress row currently stored for `(user_id, unit_id)`. -/
def show_quiz_summary (existing : Option Progress) (user_id : Nat)
    (qs : Option QuizState) : SummaryOutcome :=
  match qs with
  | none => .noop
  | some s =>
    if s.mode = some "CHALLENGE" then .gameSummary "🏁 Shared Practice Completed!"
    else if s.questions.length = 0 then .raised  -- score / 0 questions
    else
      let accuracy : ℚ := (s.score : ℚ) / (s.questions.length : ℚ) * 100
      let curr_phase_str :=
        if accuracy ≥ 95 then "EXAM_BIASED"
        else if accuracy ≥ 80 then "BALANCED"
        else "BASELINE"
      match gradeForSummary s.grade with
      | none => .raised
      | some gr =>
        let progress :=
          update_phase_progress existing user_id s.unit_id s.subject gr
            curr_phase_str accuracy
        let skipped := (s.history.filter (fun h => h.selected = "SKIP")).length
        let xp_gained := pyIntOfRat (accuracy / 10) * 10
        let target :=
          if pySubstr "_REV_" s.unit_id ∨ pySubstr "SMART" s.unit_id then
            "SCR_REVIEW_SUM"
          else if s.unit = "Random Quiz" then "SCR_RANDOM_SUM"
          else "SCR_QUIZ_SUM"
        .standard ⟨progress, accuracy, curr_phase_str, xp_gained, skipped, target⟩

/-! ## Game handler (`handlers/game_handler.py`) -/

/-- `game_handler.start_speedrun`'s quiz_state initialization (lines 34-49).
`questions` stands for the pool returned by `_get_random_questions`;
`now` is `time.time()`. -/
def start_speedrun (duration_seconds : ℚ) (subject_code : Option String)
    (count : Nat) (grade : Int) (questions : List Question) (now : ℚ) :
    QuizState :=
  { mode := some "SPEEDRUN",
    duration := duration_seconds,
    subject_code := subject_code.getD "",
    start_time := now,
    subject :=
      (match subject_code with
       | some "BIO" => "Biology"
       | some "CHEM" => "Chemistry"
       | some "PHYS" => "Physics"
       | some "MATH" => "Mathematics"
       | _ => "Mixed Science"),
    grade := s!"Grade {grade}",
    unit := if duration_seconds ≤ 300 then "Sprint" else "Exam Mode",
    unit_id := s!"SR_{duration_seconds.num}_{(pyIntOfRat now)}",
    questions := questions,
    current_index := 0,
    score := 0,
    history := [],
    last_feedback := "🎮" }

/-- `game_handler.start_survival`'s quiz_state initialization (lines 67-78). -/
def start_survival (subject_code : String) (grade : Int)
    (questions : List Question) (now : ℚ) : QuizState :=
  { mode := some "SURVIVAL",
    subject :=
      (match subject_code with
       | "BIO" => "Biology"
       | "CHEM" => "Chemistry"
       | "PHYS" => "Physics"
       | "MATH" => "Mathematics"
       | c => c),
    grade := s!"Grade {grade}",
    unit := "Survival Mode",
    unit_id := s!"SURVIVAL_{subject_code}_{(pyIntOfRat now)}",
    questions := questions,
    current_index := 0,
    score := 0,
    history := [],
    last_feedback := "🎮" }

/-- `game_handler.start_challenge_session`'s quiz_state initialization
(lines 368-379). -/
def start_challenge_session (subject : Option String) (grade : Int)
    (challenge_id : String) (questions : List Question) : QuizState :=
  { mode := some "CHALLENGE",
    subject := subject.getD "Mixed Science",
    grade := s!"Grade {grade}",
    unit := "Multiplayer Challenge",
    unit_id := challenge_id,
    questions := questions,
    current_index := 0,
    score := 0,
    history := [],
    last_feedback := "🎮" }

/-- What `handle_game_answer` does after grading: either it ends the run
(`show_game_summary reason` — reached by a `return` before any
`update_session_state`, so the mutated local dict is discarded) or it
persists the new state and presents the next question. -/
inductive GameStep
  | summary (reason : String)
  | next
  deriving Repr, DecidableEq

/-- The observable effects of one `handle_game_answer` call. -/
structure GameAnswer where
  /-- the quiz_state stored in the session after the call: summary paths
  return before writing back, so it is the unmutated input state there -/
  persisted : QuizState
  step : GameStep
  /-- amount passed to `add_xp` (happens even on run-ending correct answers) -/
  xp : Nat
  /-- whether the submitted answer was graded correct -/
  correct : Bool
  deriving Repr, DecidableEq

/-- Outcome of `handle_game_answer`. -/
inductive GameOutcome
  | noop                  -- `if not state: return`
  | raised                -- KeyError ("mode") / IndexError (stale index)
  | done (g : GameAnswer)
  deriving Repr, DecidableEq

/-- The survival-mode death explanation (line 211). -/
def survivalDeathReason (correct_opt : String) (q : Question) : String :=
  let expl := pyStrip (q.explanation.getD "No explanation available.")
  s!"💔 *Game Over!*\n\nWrong Answer! Correct was *{correct_opt}*.\n\n📖 __{expl}__"

/-- `game_handler.handle_game_answer`: re-checks SPEEDRUN elapsed time
against `duration + 2` (grace) before grading; grades against
`correct_answer` (falling back to the `answer` key); correct answers score,
award XP (20 SURVIVAL / 15 otherwise) and advance; SURVIVAL ends on the
first wrong answer; other modes advance past mistakes; exhausting the
question list ends the run. `now` is `time.time()`. -/
def handle_game_answer (qs : Option QuizState) (selected_opt : String)
    (now : ℚ) : GameOutcome :=
  match qs with
  | none => .noop
  | some s =>
    match s.mode with
    | none => .raised     -- state["mode"] raises KeyError
    | some mode =>
      if mode = "SPEEDRUN" ∧ now - s.start_time > s.duration + 2 then
        .done ⟨s, .summary "⏱️ Time\x27s Up!", 0, false⟩
      else
        match s.questions.get? s.current_index with
        | none => .raised  -- state["questions"][idx] raises IndexError
        | some q =>
          let correct_opt :=
            if q.correct_answer ≠ "" then q.correct_answer
            else q.answer.getD ""
          let is_correct := selected_opt == correct_opt
          if is_correct then
            let xp := if mode = "SURVIVAL" then 20 else 15
            let s2 := { s with score := s.score + 1, last_feedback := "✅",
                               current_index := s.current_index + 1 }
            if s2.current_index ≥ s2.questions.length then
              .done ⟨s, .summary "🏆 All Questions Completed!", xp, true⟩
            else
              .done ⟨s2, .next, xp, true⟩
          else
            if mode = "SURVIVAL" then
              .done ⟨s, .summary (survivalDeathReason correct_opt q), 0, false⟩
            else
              let s2 := { s with last_feedback := "❌",
                                 current_index := s.current_index + 1 }
              if s2.current_index ≥ s2.questions.length then
                let reason :=
                  if mode = "CHALLENGE" then "🏁 Shared Practice Completed!"
                  else if s.duration > 300 then "🎓 Timed Assessment Completed!"
                  else "⚡ Fast-Paced Practice Completed!"
                .done ⟨s, .summary reason, 0, false⟩
              else
                .done ⟨s2, .next, 0, false⟩

/-! ## Review queue (`database/crud.py`) -/

/-- The upsert key of `crud.add_to_review_queue`: `(user_id, question_id)`. -/
def reviewKeyMatches (user_id : Nat) (question_id : String)
    (r : ReviewItem) : Bool :=
  r.user_id == user_id && r.question_id == question_id

/-- Mutate the first row matched by `p` (SQLAlchemy `.first()` + in-place
attribute writes). -/
def updateFirst (p : α → Bool) (f : α → α) : List α → List α
  | [] => []
  | x :: xs => if p x then f x :: xs else x :: updateFirst p f xs

/-- `crud.add_to_review_queue`: upsert keyed by `(user_id, question_id)`;
an existing row gets its `status` overwritten (when different) and its
timestamp refreshed; otherwise a new row is appended. `now` is the
`datetime.utcnow()` used for `added_at`. -/
def add_to_review_queue (table : List ReviewItem) (user_id : Nat)
    (question_id status subject : String) (grade : Int) (unit : String)
    (now : ℚ) : List ReviewItem :=
  match table.find? (reviewKeyMatches user_id question_id) with
  | some _ =>
    updateFirst (reviewKeyMatches user_id question_id)
      (fun r => { r with status := status, added_at := now }) table
  | none =>
    table ++ [{ user_id := user_id, question_id := question_id,
                status := status, subject := subject, grade := grade,
                unit := unit, added_at := now }]

/-- `crud.remove_from_review_queue`: deletes every row with the key. -/
def remove_from_review_queue (table : List ReviewItem) (user_id : Nat)
    (question_id : String) : List ReviewItem :=
  table.filter (fun r => !(reviewKeyMatches user_id question_id r))

/-! ## Session store and navigation
(`database/crud.py`, `handlers/navigation.py`) -/

/-- The navigation-relevant slice of a `sessions` row. Defaults are those
`crud.get_or_create_session` writes for a fresh user. -/
structure Session where
  current_screen : String := "SCR_WELCOME"
  current_param : Option String := none
  navigation_stack : List (String × Option String) := []
  last_message_id : Option Int := none
  deriving Repr, DecidableEq

/-- `crud.update_session_state` (navigation part): when a truthy `screen`
is passed, optionally pushes the previous `(screen, param)` pair onto the
stack (only when requested and the screen actually changes), truncates the
stack to its most recent 10 entries, and replaces the current pair.
A separate `message_id` update never touches navigation. -/
def update_session_state (s : Session) (screen : Option String)
    (current_param : Option String) (message_id : Option Int)
    (add_to_nav_stack : Bool) : Session :=
  let s :=
    match screen with
    | some scr =>
      if scr.isEmpty then s  -- Python `if screen:` is false for ""
      else
        let s :=
          if add_to_nav_stack && !(s.current_screen == scr) then
            let ns := s.navigation_stack ++ [(s.current_screen, s.current_param)]
            let ns := if ns.length > 10 then ns.drop (ns.length - 10) else ns
            { s with navigation_stack := ns }
          else s
        { s with current_screen := scr, current_param := current_param }
    | none => s
  match message_id with
  | some m => { s with last_message_id := some m }
  | none => s

/-- `crud.pop_navigation_stack`: pops the most recent stack entry and makes
it current; returns the session unchanged when the stack is empty. -/
def pop_navigation_stack (s : Session) :
    Session × Option (String × Option String) :=
  match s.navigation_stack.getLast? with
  | none => (s, none)
  | some item =>
    ({ s with navigation_stack := s.navigation_stack.dropLast,
              current_screen := item.1, current_param := item.2 }, some item)

/-- `navigation.go_home`: `update_session_state(screen="SCR_HUB")` followed
by `navigate_to("SCR_HUB", add_to_stack=False)` (another
`update_session_state`). The intermediate
`session.navigation_stack = "[]"` assignment in the source mutates a
detached ORM object after its DB session is closed and is never committed,
so it has no persistent effect and is not modelled. -/
def go_home (s : Session) : Session :=
  let s := update_session_state s (some "SCR_HUB") none none false
  update_session_state s (some "SCR_HUB") none none false

/-- The navigation operations of the claim: a screen transition with or
without stack push (`navigation.navigate_to`), back (`navigation.go_back`)
and home (`navigation.go_home`). -/
inductive NavOp
  | transition (screen : String) (param : Option String) (addToStack : Bool)
  | back
  | home
  deriving Repr, DecidableEq

/-- One navigation step. `back` pops and re-navigates to the popped pair
without pushing; an empty stack redirects home. -/
def navStep (s : Session) : NavOp → Session
  | .transition scr p add => update_session_state s (some scr) p none add
  | .back =>
    match pop_navigation_stack s with
    | (s2, some item) => update_session_state s2 (some item.1) item.2 none false
    | (s2, none) => go_home s2
  | .home => go_home s

/-- Runs a sequence of navigation operations from a session state. -/
def runNav (s : Session) (ops : List NavOp) : Session :=
  ops.foldl navStep s

/-! ## Batch-run drivers

These fold the per-answer handlers over a whole run, accumulating the
amounts passed to `add_xp` and the number of correctly answered questions,
so that run-level XP totals can be stated. -/

/-- Drives a standard/review batch: each submitted answer goes through
`handle_answer_selection`, then the explicit "next" request
(`next_question`). Returns the final state, the total XP awarded and the
number of correct answers; `none` if any step raises or leaves the
standard path. -/
def runStandard : QuizState → List String → Option (QuizState × Nat × Nat)
  | s, [] => some (s, 0, 0)
  | s, a :: rest =>
    match handle_answer_selection (some s) a with
    | .answered r =>
      match next_question (some r.state) with
      | some s2 =>
        match runStandard s2 rest with
        | some (sf, xp, c) =>
          some (sf, r.xp + xp, (if r.attempt_correct then 1 else 0) + c)
        | none => none
      | none => none
    | _ => none

/-- Result of driving a game run: either all submitted answers were
consumed with the run still in progress, or the run ended with a summary
screen. Carries total XP awarded and the number of correct answers. -/
inductive RunGameResult
  | ongoing (s : QuizState) (xp c : Nat)
  | ended (s : QuizState) (reason : String) (xp c : Nat)
  deriving Repr, DecidableEq

/-- Drives a game run through `handle_game_answer`; each element of the
input is `(time.time() at submission, selected option)`. -/
def runGame : QuizState → List (ℚ × String) → Option RunGameResult
  | s, [] => some (.ongoing s 0 0)
  | s, (t, a) :: rest =>
    match handle_game_answer (some s) a t with
    | .done g =>
      match g.step with
      | .summary reason =>
        some (.ended g.persisted reason g.xp (if g.correct then 1 else 0))
      | .next =>
        match runGame g.persisted rest with
        | some (.ongoing sf xp c) =>
          some (.ongoing sf (g.xp + xp) ((if g.correct then 1 else 0) + c))
        | some (.ended sf r xp c) =>
          some (.ended sf r (g.xp + xp) ((if g.correct then 1 else 0) + c))
        | none => none
    | _ => none

/-! ## Lock evaluator (`utils/lock_manager.py`)

`is_content_locked` wraps its whole evaluation body in
`try: ... except Exception: return False, ""` (fail open). We model the
store raising on access with a `broken` flag on the database surface; each
query is an `Except` that errors when `broken`, and the wrapper catches.
The Python `param`/`screen` arguments may be `None`; callers pass strings,
and `None` is modelled as `""` (both are falsy under `if param:`). -/

/-- The database surface the lock evaluator touches. `broken` models the
storage engine raising on access (an internal evaluation failure). -/
structure LockDB where
  locks : List SystemLock
  users : List UserRow
  broken : Bool
  deriving Repr, DecidableEq

/-- FEATURE-lock lookup (first active lock on the target). -/
def dbFeatureLock (db : LockDB) (target : String) :
    Except Unit (Option SystemLock) :=
  if db.broken then .error () else
    .ok (db.locks.find? fun l =>
      l.lock_type == "FEATURE" && l.lock_target == target && l.is_locked)

/-- Grade-qualified SUBJECT-lock lookup. -/
def dbSubjectLock (db : LockDB) (target : String) :
    Except Unit (Option SystemLock) :=
  if db.broken then .error () else
    .ok (db.locks.find? fun l =>
      l.lock_type == "SUBJECT" && l.lock_target == target && l.is_locked)

/-- UNIT-lock lookup over a set of candidate unit ids (`.in_(...)`). -/
def dbUnitLocks (db : LockDB) (targets : List String) :
    Except Unit (List SystemLock) :=
  if db.broken then .error () else
    .ok (db.locks.filter fun l =>
      l.lock_type == "UNIT" && targets.contains l.lock_target && l.is_locked)

/-- `db.query(User).filter(User.id == telegram_id).first()`. -/
def dbUserById (db : LockDB) (uid : Int) : Except Unit (Option UserRow) :=
  if db.broken then .error () else
    .ok (db.users.find? fun u => u.id == uid)

/-- The static screen→feature table (lines 27-52). -/
def feature_map : List (String × String) :=
  [("SCR_GAMEMODE", "ADVANCED_PRACTICE"),
   ("SCR_SPEEDRUN_SETUP", "ADVANCED_PRACTICE"),
   ("SCR_SPEEDRUN_SUBJECTS", "ADVANCED_PRACTICE"),
   ("SCR_SPEEDRUN_COUNTS", "ADVANCED_PRACTICE"),
   ("SCR_SURVIVAL_SETUP", "ADVANCED_PRACTICE"),
   ("SCR_GAME_PRES", "ADVANCED_PRACTICE"),
   ("SCR_REVIEW_HUB", "REVIEW_HUB"),
   ("SCR_PDF_VAULT", "PDFS_AND_FILES"),
   ("SCR_RANKING", "LEADERBOARD"),
   ("SCR_MULTIPLAYER_HUB", "PRACTICE_WITH_FRIENDS"),
   ("SCR_MP_SUBJ_SELECT", "PRACTICE_WITH_FRIENDS"),
   ("SCR_INVITES", "PRACTICE_WITH_FRIENDS"),
   ("SCR_AI_CHAT", "AI_TUTOR")]

/-- Subject short-code table (insertion order matters for the first-match
subject scan). -/
def subj_map : List (String × String) :=
  [("BIO", "Biology"), ("CHEM", "Chemistry"),
   ("PHYS", "Physics"), ("MATH", "Mathematics")]

/-- Feature resolution: the screen table, overridden for `ACT` actions
whose param implies a feature (lines 54-60). -/
def targetFeature (action screen param : String) : Option String :=
  let tf := feature_map.lookup screen
  if action = "ACT" then
    let tf := if param ≠ "" && pySubstr "SPEEDRUN" param then
      some "ADVANCED_PRACTICE" else tf
    let tf := if param ≠ "" && pySubstr "SURVIVAL" param then
      some "ADVANCED_PRACTICE" else tf
    if param ≠ "" && pySubstr "MP" param then
      some "PRACTICE_WITH_FRIENDS" else tf
  else tf

/-- Grade extraction out of the param (lines 79-91): a bare digit string in
9..12, else the first `:`/`|`-delimited part that cleans to one. -/
def gradeFromParam (param : String) : Option String :=
  if param ≠ "" then
    if pyIsDigit param && [(9 : Int), 10, 11, 12].contains ((pyInt param).getD 0)
    then some param
    else
      (pySplit ":" (pyReplace param "|" ":")).findSome? fun p =>
        let cleanP := pyStrip (pyReplace (pyReplace p "Grade" "") "G" "")
        if pyIsDigit cleanP &&
            [(9 : Int), 10, 11, 12].contains ((pyInt cleanP).getD 0)
        then some cleanP else none
  else none

/-- Screens whose lock check falls back to the user's stored grade
(lines 96-100). -/
def content_screens : List String :=
  ["SCR_UNITS", "SCR_QUIZ_PRES", "SCR_TOPIC_SELECTION", "SCR_UNIT_START",
   "SCR_REVIEW_HUB", "SCR_SPEEDRUN_SUBJECTS", "SCR_SURVIVAL_SETUP",
   "SCR_PDF_VAULT", "SCR_RANDOM_SETUP"]

/-- One attempt of the pattern `([A-Z]+)_G([0-9]+)_U([0-9]+)` anchored at
the head of the character list; returns the three groups and the
unconsumed rest. (Backtracking inside the greedy classes can never
succeed here, since each class is followed by a literal outside it.) -/
def matchUnitIdAt (cs : List Char) :
    Option ((String × String × String) × List Char) :=
  let letters := cs.takeWhile Char.isUpper
  if letters.isEmpty then none
  else
    match cs.dropWhile Char.isUpper with
    | '_' :: 'G' :: r2 =>
      let ds1 := r2.takeWhile Char.isDigit
      if ds1.isEmpty then none
      else
        match r2.dropWhile Char.isDigit with
        | '_' :: 'U' :: r4 =>
          let ds2 := r4.takeWhile Char.isDigit
          if ds2.isEmpty then none
          else some ((letters.asString, ds1.asString, ds2.asString),
                     r4.dropWhile Char.isDigit)
        | _ => none
    | _ => none

/-- `re.findall` for the unit-id pattern: leftmost, non-overlapping. -/
def findUnitIdsAux : Nat → List Char → List String
  | 0, _ => []
  | _, [] => []
  | Nat.succ fuel, c :: cs =>
    match matchUnitIdAt (c :: cs) with
    | some (g, rest) => s!"{g.1}_G{g.2.1}_U{g.2.2}" :: findUnitIdsAux fuel rest
    | none => findUnitIdsAux fuel cs

def findUnitIds (s : String) : List String :=
  findUnitIdsAux s.length s.toList

/-- The delimiter-heuristic fallback for unit ids (lines 157-173): scan the
`:`/`|`-separated parts for a subject code, a grade-ish part and a
unit-ish part; later parts overwrite earlier ones. -/
def fallbackUnitIds (param : String) : List String :=
  let parts := pySplit ":" (pyReplace param "|" ":")
  let acc := parts.foldl
    (fun (acc : Option String × Option String × Option String) p =>
      let p := pyStrip p
      if (subj_map.lookup p).isSome then (some p, acc.2.1, acc.2.2)
      else if pySubstr "G" p || pySubstr "Grad" p then
        (acc.1, some (pyStrip (pyReplace (pyReplace p "Grade" "") "G" "")), acc.2.2)
      else if pySubstr "U" p || pySubstr "init" p then
        (acc.1, acc.2.1, some (pyStrip (pyReplace (pyReplace p "Unit" "") "U" "")))
      else acc)
    (none, none, none)
  match acc with
  | (some s, some g, some u) => [s!"{s}_G{g}_U{u}"]
  | _ => []

/-- Candidate unit ids for the UNIT-lock check (lines 145-173). -/
def potentialUnitIds (action screen param : String) : List String :=
  if ["SCR_QUIZ_PRES", "SCR_PDF_VAULT", "SCR_GAME_PRES"].contains screen
      || (action = "ACT" && (pySubstr "QUIZ" param || pySubstr "FILE" param
            || pySubstr "SPEEDRUN" param)) then
    if param ≠ "" then
      let ids := findUnitIds param
      if ids.isEmpty && (pySubstr ":" param || pySubstr "|" param) then
        fallbackUnitIds param
      else ids
    else []
  else []

/-- A matched active lock either blocks, or — for administrators — is
bypassed with a distinctly tagged notice. -/
def lockVerdict (adminIds : List Int) (telegramId : Int) (msg : String) :
    Bool × String :=
  if adminIds.contains telegramId then
    (false, s!"🛡️ LOCKED (Admin Bypass): {msg}")
  else (true, s!"🔒 {msg}")

/-- UNIT-lock stage (lines 175-186). -/
def lockEvalUnit (adminIds : List Int) (db : LockDB) (telegramId : Int)
    (action screen param : String) : Except Unit (Bool × String) :=
  let potential_ids := potentialUnitIds action screen param
  if potential_ids.isEmpty then .ok (false, "")
  else
    match dbUnitLocks db potential_ids with
    | .error e => .error e
    | .ok [] => .ok (false, "")
    | .ok (_ :: _) =>
      .ok (lockVerdict adminIds telegramId "This unit is currently locked.")

/-- SUBJECT-lock stage (lines 114-142): detects the first subject code
occurring in the upper-cased param, and with a grade in hand checks the
grade-qualified subject lock. (Global subject locks are skipped in the
source.) -/
def lockEvalSubject (adminIds : List Int) (db : LockDB) (telegramId : Int)
    (action screen param : String) (target_grade : Option Int) :
    Except Unit (Bool × String) :=
  let target_subject_code :=
    if param ≠ "" then
      ["BIO", "CHEM", "PHYS", "MATH"].find?
        (fun code => pySubstr code (pyUpper param))
    else none
  match target_subject_code, target_grade with
  | some code, some g =>
    let subj_name := (subj_map.lookup code).getD ""
    match dbSubjectLock db s!"{subj_name}:{g}" with
    | .error e => .error e
    | .ok (some _) =>
      .ok (lockVerdict adminIds telegramId
        s!"{subj_name} for Grade {g} is locked.")
    | .ok none => lockEvalUnit adminIds db telegramId action screen param
  | _, _ => lockEvalUnit adminIds db telegramId action screen param

/-- Grade stage (lines 73-112): grade from the param, else — for content
screens and content-implying ACT params — from the user's stored grade. -/
def lockEvalGrade (adminIds : List Int) (db : LockDB) (telegramId : Int)
    (action screen param : String) : Except Unit (Bool × String) :=
  match gradeFromParam param with
  | some g => lockEvalSubject adminIds db telegramId action screen param (pyInt g)
  | none =>
    if content_screens.contains screen
        || (action = "ACT" && (pySubstr "QUIZ" param
              || pySubstr "SPEEDRUN" param || pySubstr "SURVIVAL" param)) then
      match dbUserById db telegramId with
      | .error e => .error e
      | .ok uObj =>
        let target_grade : Option Int :=
          match uObj with
          | some u => if u.current_grade ≠ 0 then some u.current_grade else none
          | none => none
        lockEvalSubject adminIds db telegramId action screen param target_grade
    else lockEvalSubject adminIds db telegramId action screen param none

/-- FEATURE-lock stage (lines 26-71). -/
def lockEvalFeature (adminIds : List Int) (db : LockDB) (telegramId : Int)
    (action screen param : String) : Except Unit (Bool × String) :=
  match targetFeature action screen param with
  | some tf =>
    match dbFeatureLock db tf with
    | .error e => .error e
    | .ok (some _) =>
      .ok (lockVerdict adminIds telegramId
        (pyTitle (pyReplace tf "_" " ") ++ " is currently locked."))
    | .ok none => lockEvalGrade adminIds db telegramId action screen param
  | none => lockEvalGrade adminIds db telegramId action screen param

/-- `lock_manager.is_content_locked`: admin screens are exempt before the
guarded body; any exception inside the body is caught and answered with
`(False, "")` (fail open). -/
def is_content_locked (adminIds : List Int) (db : LockDB) (telegramId : Int)
    (action screen param : String) : Bool × String :=
  if screen ≠ "" && (pyStartswith "SCR_LOCK_" screen
      || pyStartswith "SCR_ADMIN_" screen) then
    (false, "")
  else
    match lockEvalFeature adminIds db telegramId action screen param with
    | .ok r => r
    | .error _ => (false, "")

/-! ## Projections and concrete inputs used by the claims -/

/-- The accuracy of a standard summary, when one was produced. -/
def SummaryOutcome.accuracy? : SummaryOutcome → Option ℚ
  | .standard v => some v.accuracy
  | _ => none

/-- The progress row written by a standard summary, when one was produced. -/
def SummaryOutcome.progress? : SummaryOutcome → Option Progress
  | .standard v => some v.progress
  | _ => none

/-- The display-only `xp_reward` of a standard summary. -/
def SummaryOutcome.xpReward? : SummaryOutcome → Option Int
  | .standard v => some v.xp_reward
  | _ => none

/-- The batch-derived phase label of a standard summary. -/
def SummaryOutcome.currPhase? : SummaryOutcome → Option String
  | .standard v => some v.curr_phase
  | _ => none

/-- The history written back by a standard-path answer, when one happened. -/
def StdOutcome.history? : StdOutcome → Option (List HistoryEntry)
  | .answered a => some a.state.history
  | _ => none

/-- The quiz_state written back by a standard-path answer. -/
def StdOutcome.state? : StdOutcome → Option QuizState
  | .answered a => some a.state
  | _ => none

/-- The XP amount passed to `add_xp` by a standard-path answer. -/
def StdOutcome.xp? : StdOutcome → Option Nat
  | .answered a => some a.xp
  | _ => none

/-- Total XP awarded over a driven game run. -/
def RunGameResult.xpTotal : RunGameResult → Nat
  | .ongoing _ xp _ => xp
  | .ended _ _ xp _ => xp

/-- Number of correct answers over a driven game run. -/
def RunGameResult.corrects : RunGameResult → Nat
  | .ongoing _ _ c => c
  | .ended _ _ _ c => c

/-- A minimal well-formed question with the given id, correct option A. -/
def mkQ (i : Nat) : Question :=
  { question_id := s!"Q{i}", correct_answer := "A" }

/-- A freshly completed 10-question standard batch with 9 correct answers
(score 9, index past the end), as `show_quiz_summary` sees it. -/
def c1State : QuizState :=
  { grade := "Grade 10", subject := "Biology", unit := "Unit 1",
    unit_id := "BIO_G10_U1", questions := (List.range 10).map mkQ,
    current_index := 10, score := 9 }

/-- A stored quiz_state whose `current_index` (1) is past the end of its
question list (length 1): the stale-resume shape of claim C2. -/
def c2Stale : QuizState :=
  { grade := "Grade 9", questions := [mkQ 0], current_index := 1 }

/-- The same stale shape as a SPEEDRUN game state. -/
def c2StaleSpeed : QuizState :=
  { c2Stale with mode := some "SPEEDRUN", duration := 60, start_time := 0 }

/-- A fresh 4-question standard batch (counterexample input for C3). -/
def c3State : QuizState :=
  { grade := "Grade 9", subject := "Biology", unit := "Unit 1",
    unit_id := "BIO_G9_U1", questions := (List.range 4).map mkQ }

/-- The state of `c3State` after answering A, A, A, B with "next" after
each (3 correct, 1 incorrect, batch complete). -/
def c3Final : QuizState :=
  { c3State with
    current_index := 4, score := 3,
    history :=
      [{ q_id := "Q0", selected := "A", correct := "A", is_correct := true },
       { q_id := "Q1", selected := "A", correct := "A", is_correct := true },
       { q_id := "Q2", selected := "A", correct := "A", is_correct := true },
       { q_id := "Q3", selected := "B", correct := "A", is_correct := false }] }

/-- A fresh 3-question SPEEDRUN state started at time 0 with 60s duration. -/
def c3SpeedState : QuizState :=
  { mode := some "SPEEDRUN", duration := 60, start_time := 0,
    grade := "Grade 9", questions := (List.range 3).map mkQ }

/-- A fresh 5-question SURVIVAL state. -/
def c3SurvState : QuizState :=
  { mode := some "SURVIVAL", grade := "Grade 9",
    questions := (List.range 5).map mkQ }

/-- The persisted state of `c3SurvState` when the third answer (wrong)
ends the run: two correct answers were stored, the death mutation never
written back. -/
def c3SurvFinal : QuizState :=
  { c3SurvState with current_index := 2, score := 2, last_feedback := "✅" }

/-- The survival death reason for a question with correct option A and no
explanation. -/
def c3SurvDeath : String :=
  "💔 *Game Over!*\n\nWrong Answer! Correct was *A*.\n\n📖 __No explanation available.__"

/-- A progress row with BALANCED already unlocked. -/
def c4RowBalanced : Progress :=
  { user_id := 7, unit_id := "BIO_G10_U1", subject := "Biology", grade := 10,
    current_phase := "BALANCED", unlocked_balanced := true }

/-- A progress row with EXAM_BIASED already unlocked. -/
def c4RowExam : Progress :=
  { user_id := 7, unit_id := "BIO_G10_U1", subject := "Biology", grade := 10,
    current_phase := "EXAM_BIASED", unlocked_balanced := true,
    unlocked_exam := true }

/-- A fresh 3-question standard state (witness input for C6). -/
def c6State : QuizState :=
  { grade := "Grade 9", subject := "Biology", unit := "Unit 1",
    unit_id := "BIO_G9_U1", questions := (List.range 3).map mkQ }

/-- `get_or_create_session`'s fresh session. -/
def initialSession : Session := {}

/-- Navigation sequence violating the stack-top claim: push-navigate away
from the welcome screen, then navigate back to it without a push (the
pattern of `callback_router` line 994). -/
def c8Ops : List NavOp :=
  [NavOp.transition "SCR_HUB" none true,
   NavOp.transition "SCR_WELCOME" none false]

/-- A fresh 3-question CHALLENGE state (counterexample input for C10). -/
def c10State : QuizState :=
  { mode := some "CHALLENGE", grade := "Grade 9", subject := "Biology",
    unit := "Multiplayer Challenge", unit_id := "CH_1",
    questions := (List.range 3).map mkQ }

/-- The effects of a correct SURVIVAL answer on `c3SurvState`. -/
def c10GameG : GameAnswer :=
  { persisted := { c3SurvState with
      score := 1, last_feedback := "✅", current_index := 1 },
    step := GameStep.next, xp := 20, correct := true }

/-- The effects of a correct CHALLENGE answer on `c10State` (processed by
the standard handler: one history entry appended). -/
def c10StdA : StdAnswer :=
  { state := { c10State with
      score := 1, last_feedback := "✅",
      history := [{ q_id := "Q0", selected := "A", correct := "A",
                    is_correct := true }] },
    xp := 10, attempt_correct := true, review_removed := true,
    review_added := none }

/-! ## Claim C4 — unlock flags are monotone, `current_phase` tracks them -/

/-- C4: for every stored ProgressRecord and every subsequent
`update_phase_progress` call with any phase string and any accuracy, a
true `unlocked_balanced` (resp. `unlocked_exam`) stays true, and the
resulting `current_phase` is exactly the highest unlocked phase (so it
never sits below it). -/
theorem c4_unlock_monotone (p : Progress) (u : Nat) (uid subj : String)
    (g : Int) (ph : String) (acc : ℚ) :
    (p.unlocked_balanced = true →
      (update_phase_progress (some p) u uid subj g ph acc).unlocked_balanced = true) ∧
    (p.unlocked_exam = true →
      (update_phase_progress (some p) u uid subj g ph acc).unlocked_exam = true) ∧
    (update_phase_progress (some p) u uid subj g ph acc).current_phase =
      phaseOfFlags
        (update_phase_progress (some p) u uid subj g ph acc).unlocked_balanced
        (update_phase_progress (some p) u uid subj g ph acc).unlocked_exam := by
  unfold update_phase_progress phaseOfFlags
  simp only [Option.getD_some]
  split_ifs <;> simp_all

/-- Witness for C4 at a concrete record and call. -/
theorem c4_unlock_monotone_witness :
    (update_phase_progress (some c4RowBalanced) 7 "BIO_G10_U1" "Biology" 10
      "BASELINE" 10).unlocked_balanced = true ∧
    (update_phase_progress (some c4RowExam) 7 "BIO_G10_U1" "Biology" 10
      "BALANCED" 10).unlocked_exam = true ∧
    (update_phase_progress (some c4RowBalanced) 7 "BIO_G10_U1" "Biology" 10
      "BASELINE" 10).current_phase =
      phaseOfFlags
        (update_phase_progress (some c4RowBalanced) 7 "BIO_G10_U1" "Biology" 10
          "BASELINE" 10).unlocked_balanced
        (update_phase_progress (some c4RowBalanced) 7 "BIO_G10_U1" "Biology" 10
          "BASELINE" 10).unlocked_exam :=
  ⟨(c4_unlock_monotone c4RowBalanced 7 "BIO_G10_U1" "Biology" 10 "BASELINE" 10).1 rfl,
   (c4_unlock_monotone c4RowExam 7 "BIO_G10_U1" "Biology" 10 "BALANCED" 10).2.1 rfl,
   (c4_unlock_monotone c4RowBalanced 7 "BIO_G10_U1" "Biology" 10 "BASELINE" 10).2.2⟩

/-! ## Claim C9 — review-queue add is a dedicated upsert -/

theorem updateFirst_find?_eq (p : α → Bool) (f : α → α)
    (hf : ∀ a, p (f a) = p a) :
    ∀ (l : List α) (r : α), l.find? p = some r →
      (updateFirst p f l).find? p = some (f r) := by
  intro l
  induction l with
  | nil => intro r h; simp [List.find?] at h
  | cons x xs ih =>
    intro r h
    by_cases hx : p x
    · rw [List.find?_cons_of_pos _ hx] at h
      cases h
      simp [updateFirst, hx, List.find?_cons_of_pos, hf]
    · rw [List.find?_cons_of_neg _ hx] at h
      simpa [updateFirst, hx, List.find?_cons_of_neg] using ih r h

theorem updateFirst_filter_length (p : α → Bool) (f : α → α)
    (hf : ∀ a, p (f a) = p a) :
    ∀ l : List α,
      ((updateFirst p f l).filter p).length = (l.filter p).length := by
  intro l
  induction l with
  | nil => rfl
  | cons x xs ih =>
    by_cases hx : p x
    · simp [updateFirst, hx, List.filter_cons, hf]
    · simp [updateFirst, hx, List.filter_cons, ih]

theorem find?_append_of_none (p : α → Bool) (l₁ l₂ : List α)
    (h : l₁.find? p = none) : (l₁ ++ l₂).find? p = l₂.find? p := by
  induction l₁ with
  | nil => rfl
  | cons x xs ih =>
    have hx : ¬ p x := by
      intro hpx
      rw [List.find?_cons_of_pos _ hpx] at h
      exact Option.noConfusion h
    rw [List.find?_cons_of_neg _ hx] at h
    rw [List.cons_append, List.find?_cons_of_neg _ hx]
    exact ih h

theorem add_to_review_queue_find (table : List ReviewItem) (uid : Nat)
    (qid st subj : String) (g : Int) (unit : String) (t : ℚ) :
    ∃ r, (add_to_review_queue table uid qid st subj g unit t).find?
        (reviewKeyMatches uid qid) = some r ∧ r.status = st ∧ r.added_at = t := by
  unfold add_to_review_queue
  cases h : table.find? (reviewKeyMatches uid qid) with
  | none =>
    refine ⟨{ user_id := uid, question_id := qid, status := st, subject := subj,
              grade := g, unit := unit, added_at := t }, ?_, rfl, rfl⟩
    rw [find?_append_of_none _ _ _ h]
    simp [List.find?, reviewKeyMatches]
  | some r0 =>
    dsimp only
    exact ⟨_, updateFirst_find?_eq (reviewKeyMatches uid qid)
      (fun r => { r with status := st, added_at := t }) (fun a => rfl) table r0 h,
      rfl, rfl⟩

theorem add_to_review_queue_count (table : List ReviewItem) (uid : Nat)
    (qid st subj : String) (g : Int) (unit : String) (t : ℚ)
    (h : (table.filter (reviewKeyMatches uid qid)).length ≤ 1) :
    ((add_to_review_queue table uid qid st subj g unit t).filter
      (reviewKeyMatches uid qid)).length = 1 := by
  unfold add_to_review_queue
  cases hf : table.find? (reviewKeyMatches uid qid) with
  | none =>
    dsimp only
    have hnil : table.filter (reviewKeyMatches uid qid) = [] := by
      rw [List.filter_eq_nil_iff]
      intro a ha
      exact List.find?_eq_none.mp hf a ha
    rw [List.filter_append, hnil]
    simp [List.filter, reviewKeyMatches]
  | some r0 =>
    dsimp only
    rw [updateFirst_filter_length (reviewKeyMatches uid qid)
      (fun r => { r with status := st, added_at := t }) (fun a => rfl)]
    have hmem : r0 ∈ table := List.mem_of_find?_eq_some hf
    have hp : reviewKeyMatches uid qid r0 = true := List.find?_some hf
    have hmemf : r0 ∈ table.filter (reviewKeyMatches uid qid) :=
      List.mem_filter.mpr ⟨hmem, hp⟩
    have hpos : 0 < (table.filter (reviewKeyMatches uid qid)).length :=
      List.length_pos.mpr (List.ne_nil_of_mem hmemf)
    omega

/-- C9: starting from any table in which `(user, question_id)` keys at most
one row (the DB invariant), two consecutive `add_to_review_queue` calls
with different statuses leave exactly one row for that key; the row found
for the key carries the later call's status and timestamp. -/
theorem c9_review_add_dedup (table : List ReviewItem) (uid : Nat)
    (qid s1 s2 subj : String) (g : Int) (unit : String) (t1 t2 : ℚ)
    (hstatus : s1 ≠ s2)
    (huniq : (table.filter (reviewKeyMatches uid qid)).length ≤ 1) :
    ((add_to_review_queue (add_to_review_queue table uid qid s1 subj g unit t1)
        uid qid s2 subj g unit t2).filter (reviewKeyMatches uid qid)).length = 1 ∧
    ∃ r, (add_to_review_queue (add_to_review_queue table uid qid s1 subj g unit t1)
        uid qid s2 subj g unit t2).find? (reviewKeyMatches uid qid) = some r ∧
      r.status = s2 ∧ r.added_at = t2 := by
  have h1 := add_to_review_queue_count table uid qid s1 subj g unit t1 huniq
  exact ⟨add_to_review_queue_count _ uid qid s2 subj g unit t2 (le_of_eq h1),
         add_to_review_queue_find _ uid qid s2 subj g unit t2⟩

/-- Witness for C9: SKIPPED then MISTAKE for the same question on an empty
table. -/
theorem c9_review_add_dedup_witness :
    ((add_to_review_queue (add_to_review_queue [] 1 "Q7" "SKIPPED" "Biology" 9 "Unit 1" 100)
        1 "Q7" "MISTAKE" "Biology" 9 "Unit 1" 200).filter (reviewKeyMatches 1 "Q7")).length = 1 ∧
    ∃ r, (add_to_review_queue (add_to_review_queue [] 1 "Q7" "SKIPPED" "Biology" 9 "Unit 1" 100)
        1 "Q7" "MISTAKE" "Biology" 9 "Unit 1" 200).find? (reviewKeyMatches 1 "Q7") = some r ∧
      r.status = "MISTAKE" ∧ r.added_at = 200 :=
  c9_review_add_dedup [] 1 "Q7" "SKIPPED" "MISTAKE" "Biology" 9 "Unit 1" 100 200
    (by decide) (by decide)

/-! ## Claim C5 — the lock evaluator fails open -/

theorem lockEvalUnit_broken (adminIds : List Int) (db : LockDB) (tid : Int)
    (action screen param : String) (h : db.broken = true) :
    lockEvalUnit adminIds db tid action screen param = .error () ∨
    lockEvalUnit adminIds db tid action screen param = .ok (false, "") := by
  unfold lockEvalUnit dbUnitLocks
  rw [h]
  simp only [if_true]
  split
  · exact Or.inr rfl
  · exact Or.inl rfl

theorem lockEvalSubject_broken (adminIds : List Int) (db : LockDB) (tid : Int)
    (action screen param : String) (tg : Option Int) (h : db.broken = true) :
    lockEvalSubject adminIds db tid action screen param tg = .error () ∨
    lockEvalSubject adminIds db tid action screen param tg = .ok (false, "") := by
  unfold lockEvalSubject dbSubjectLock
  rw [h]
  simp only [if_true]
  split
  · exact Or.inl rfl
  · exact lockEvalUnit_broken adminIds db tid action screen param h

theorem lockEvalGrade_broken (adminIds : List Int) (db : LockDB) (tid : Int)
    (action screen param : String) (h : db.broken = true) :
    lockEvalGrade adminIds db tid action screen param = .error () ∨
    lockEvalGrade adminIds db tid action screen param = .ok (false, "") := by
  unfold lockEvalGrade dbUserById
  rw [h]
  simp only [if_true]
  split
  · exact lockEvalSubject_broken adminIds db tid action screen param _ h
  · split
    · exact Or.inl rfl
    · exact lockEvalSubject_broken adminIds db tid action screen param none h

theorem lockEvalFeature_broken (adminIds : List Int) (db : LockDB) (tid : Int)
    (action screen param : String) (h : db.broken = true) :
    lockEvalFeature adminIds db tid action screen param = .error () ∨
    lockEvalFeature adminIds db tid action screen param = .ok (false, "") := by
  unfold lockEvalFeature dbFeatureLock
  rw [h]
  simp only [if_true]
  split
  · exact Or.inl rfl
  · exact lockEvalGrade_broken adminIds db tid action screen param h

/-- C5: for every input `(userId, action, screen, param)`, when the store
raises during lock evaluation (`db.broken`), `is_content_locked` returns
`(False, "")` — it neither blocks nor propagates the error. -/
theorem c5_lock_check_fail_open (adminIds : List Int) (db : LockDB)
    (telegramId : Int) (action screen param : String)
    (h : db.broken = true) :
    is_content_locked adminIds db telegramId action screen param = (false, "") := by
  unfold is_content_locked
  split
  · rfl
  · rcases lockEvalFeature_broken adminIds db telegramId action screen param h with
      he | hok
    · rw [he]
    · rw [hok]

/-- Witness for C5 on a concrete broken store and a content transition. -/
theorem c5_lock_check_fail_open_witness :
    is_content_locked [] { locks := [], users := [], broken := true } 1
      "NAV" "SCR_UNITS" "BIO:9" = (false, "") :=
  c5_lock_check_fail_open [] { locks := [], users := [], broken := true } 1
    "NAV" "SCR_UNITS" "BIO:9" rfl

/-! ## Claim C8 — navigation-stack invariants -/

theorem truncate_getLast (l : List (String × Option String))
    (x : String × Option String) :
    (if (l ++ [x]).length > 10 then
        (l ++ [x]).drop ((l ++ [x]).length - 10)
      else (l ++ [x])).getLast? = some x := by
  split_ifs with hgt
  · rw [List.length_append] at hgt ⊢
    simp only [List.length_singleton] at hgt ⊢
    rw [List.drop_append_of_le_length (by omega)]
    exact List.getLast?_concat _
  · exact List.getLast?_concat _

theorem truncate_length_le (l : List (String × Option String))
    (x : String × Option String) (h : l.length ≤ 10) :
    (if (l ++ [x]).length > 10 then
        (l ++ [x]).drop ((l ++ [x]).length - 10)
      else (l ++ [x])).length ≤ 10 := by
  split_ifs with hgt
  · rw [List.length_drop]
    omega
  · rw [List.length_append] at hgt ⊢
    omega

theorem update_session_state_stack_length (s : Session) (scr : Option String)
    (p : Option String) (m : Option Int) (add : Bool)
    (h : s.navigation_stack.length ≤ 10) :
    (update_session_state s scr p m add).navigation_stack.length ≤ 10 := by
  unfold update_session_state
  rcases scr with _ | sc
  · cases m <;> exact h
  · by_cases hsc : sc.isEmpty
    · simp only [hsc, if_true]
      cases m <;> exact h
    · simp only [hsc, Bool.false_eq_true, if_false]
      by_cases hadd : (add && !(s.current_screen == sc)) = true
      · simp only [hadd]
        cases m <;>
          simpa using truncate_length_le s.navigation_stack
            (s.current_screen, s.current_param) h
      · simp only [hadd]
        cases m <;> simpa using h

theorem pop_navigation_stack_length (s : Session)
    (h : s.navigation_stack.length ≤ 10) :
    (pop_navigation_stack s).1.navigation_stack.length ≤ 10 := by
  unfold pop_navigation_stack
  cases s.navigation_stack.getLast? with
  | none => exact h
  | some item =>
    simp only [List.length_dropLast]
    omega

theorem go_home_stack_length (s : Session)
    (h : s.navigation_stack.length ≤ 10) :
    (go_home s).navigation_stack.length ≤ 10 :=
  update_session_state_stack_length _ _ _ _ _
    (update_session_state_stack_length _ _ _ _ _ h)

theorem navStep_stack_length (s : Session) (op : NavOp)
    (h : s.navigation_stack.length ≤ 10) :
    (navStep s op).navigation_stack.length ≤ 10 := by
  cases op with
  | transition scr p add =>
    exact update_session_state_stack_length s (some scr) p none add h
  | back =>
    show (navStep s .back).navigation_stack.length ≤ 10
    unfold navStep
    have h1 := pop_navigation_stack_length s h
    cases hp : pop_navigation_stack s with
    | mk s2 popped =>
      rw [hp] at h1
      cases popped with
      | none => exact go_home_stack_length s2 h1
      | some item =>
        exact update_session_state_stack_length s2 (some item.1) item.2 none false h1
  | home => exact go_home_stack_length s h

theorem runNav_stack_length (ops : List NavOp) :
    ∀ s : Session, s.navigation_stack.length ≤ 10 →
      (runNav s ops).navigation_stack.length ≤ 10 := by
  induction ops with
  | nil => intro s h; exact h
  | cons op rest ih =>
    intro s h
    exact ih (navStep s op) (navStep_stack_length s op h)

/-- C8 counterexample: against the claim "its top entry never equals the
pair (current_screen, current_param)", a push transition away from the
welcome screen followed by a pushless transition back to it leaves the
stack top equal to the current pair. -/
theorem c8_counterexample :
    (runNav initialSession c8Ops).navigation_stack.getLast? =
      some ((runNav initialSession c8Ops).current_screen,
            (runNav initialSession c8Ops).current_param) := by decide

/-- C8 amended: the stack is always at most 10 entries long from the fresh
session (oldest dropped first), and immediately after a *push* transition
to a different screen the top entry differs from the new
`(current_screen, current_param)`; a transition without a push can
however leave the top equal to the current pair (see the
counterexample). -/
theorem c8_amended :
    (∀ ops : List NavOp,
      (runNav initialSession ops).navigation_stack.length ≤ 10) ∧
    (∀ (s : Session) (scr : String) (p : Option String),
      scr ≠ "" → scr ≠ s.current_screen →
      (update_session_state s (some scr) p none true).navigation_stack.getLast?
        ≠ some (scr, p)) := by
  constructor
  · intro ops
    exact runNav_stack_length ops initialSession (by decide)
  · intro s scr p hne hdiff
    have hsc : scr.isEmpty = false := by
      cases hq : scr.isEmpty
      · rfl
      · exfalso
        apply hne
        simp only [String.isEmpty, beq_iff_eq] at hq
        exact (String.endPos_eq_zero scr).mp hq
    have hbeq : (s.current_screen == scr) = false :=
      beq_eq_false_iff_ne.mpr (Ne.symm hdiff)
    unfold update_session_state
    simp only [hsc, hbeq, Bool.not_false, Bool.and_true, if_false,
      Bool.false_eq_true, if_true]
    rw [truncate_getLast]
    intro hcon
    rw [Option.some.injEq, Prod.mk.injEq] at hcon
    exact hdiff hcon.1.symm

/-- Witness for C8 at a concrete operation list and a concrete push
transition. -/
theorem c8_amended_witness :
    (runNav initialSession c8Ops).navigation_stack.length ≤ 10 ∧
    (update_session_state initialSession (some "SCR_HUB") none none
      true).navigation_stack.getLast? ≠ some ("SCR_HUB", none) :=
  ⟨c8_amended.1 c8Ops,
   c8_amended.2 initialSession "SCR_HUB" none (by decide) (by decide)⟩

/-! ## Claim C6 — answering appends one history entry without advancing;
"next" advances by one -/

/-- C6: in STANDARD/REVIEW states (no `mode` key), processing an answer
with a question under the index appends exactly one
`{question_id, selected, correct, is_correct}` entry to `history` and
leaves `current_index` unchanged; the subsequent explicit "next" request
increments `current_index` by exactly one. (The state's grade string must
parse in the review-queue call, as every state built by the handlers
does.) -/
theorem c6_answer_appends_history (s : QuizState) (sel : String)
    (q : Question) (hmode : s.mode = none)
    (hq : s.questions.get? s.current_index = some q)
    (hg : (gradeForReview s.grade).isSome) :
    (handle_answer_selection (some s) sel).history? =
      some (s.history ++
        [{ q_id := q.question_id, selected := sel, correct := q.correct_answer,
           is_correct := sel == q.correct_answer }]) ∧
    ((handle_answer_selection (some s) sel).state?).map QuizState.current_index =
      some s.current_index ∧
    (next_question ((handle_answer_selection (some s) sel).state?)).map
      QuizState.current_index = some (s.current_index + 1) := by
  unfold handle_answer_selection
  dsimp only
  rw [hmode, hq]
  rw [if_neg (by simp)]
  dsimp only
  by_cases hc : (sel == q.correct_answer) = true
  · simp [hc, StdOutcome.history?, StdOutcome.state?, next_question]
  · rcases hgs : gradeForReview s.grade with _ | g
    · rw [hgs] at hg
      simp at hg
    · have hne : ¬ sel = q.correct_answer := by simpa using hc
      simp [StdOutcome.history?, StdOutcome.state?, next_question, hne]

/-- Witness for C6 on a fresh 3-question batch and answer "B". -/
theorem c6_answer_appends_history_witness :
    (handle_answer_selection (some c6State) "B").history? =
      some (c6State.history ++
        [{ q_id := (mkQ 0).question_id, selected := "B",
           correct := (mkQ 0).correct_answer,
           is_correct := "B" == (mkQ 0).correct_answer }]) ∧
    ((handle_answer_selection (some c6State) "B").state?).map
      QuizState.current_index = some c6State.current_index ∧
    (next_question ((handle_answer_selection (some c6State) "B").state?)).map
      QuizState.current_index = some (c6State.current_index + 1) :=
  c6_answer_appends_history c6State "B" (mkQ 0) rfl (by decide) (by decide)

/-! ## Claim C2 — stale `current_index` handling (code bug) -/

/-- C2, evaluated at the failing input: with `current_index` past the end
of the question list, `present_question` and `skip_question` do treat the
state as completion, but `handle_answer_selection` (both the standard
handler and the game handler it delegates to) hits
`quiz_state["questions"][idx]` with no bounds check and raises — it never
reaches a summary. -/
theorem c2_stale_state_eval :
    present_question (some c2Stale) = PresentOutcome.summary ∧
    skip_question (some c2Stale) = SkipOutcome.summary ∧
    handle_answer_selection (some c2Stale) "A" = StdOutcome.raised ∧
    handle_game_answer (some c2StaleSpeed) "A" 1 = GameOutcome.raised := by
  refine ⟨rfl, rfl, rfl, ?_⟩
  show handle_game_answer (some c2StaleSpeed) "A" 1 = GameOutcome.raised
  unfold handle_game_answer
  norm_num [c2StaleSpeed, c2Stale]

/-! ## Claim C7 — SPEEDRUN answers beyond the grace window -/

/-- C7: in a SPEEDRUN state, an answer submitted when
`now - start_time > duration_seconds + 2` is never scored: the handler
returns the time's-up summary with the stored state untouched (no score
change, no XP, no index advance). -/
theorem c7_speedrun_late_answer (s : QuizState) (sel : String) (now : ℚ)
    (hmode : s.mode = some "SPEEDRUN")
    (hlate : now - s.start_time > s.duration + 2) :
    handle_game_answer (some s) sel now =
      GameOutcome.done ⟨s, GameStep.summary "⏱️ Time\x27s Up!", 0, false⟩ := by
  unfold handle_game_answer
  dsimp only
  rw [hmode]
  dsimp only
  rw [if_pos ⟨rfl, hlate⟩]

/-- Witness for C7: a 60-second run started at `t0 = 0` with an answer at
`t0 + 63` (past the 2-second grace). -/
theorem c7_speedrun_late_answer_witness :
    handle_game_answer (some c3SpeedState) "A" 63 =
      GameOutcome.done ⟨c3SpeedState, GameStep.summary "⏱️ Time\x27s Up!",
        0, false⟩ :=
  c7_speedrun_late_answer c3SpeedState "A" 63 rfl (by norm_num [c3SpeedState])

/-! ## Claim C1 — 9/10 standard batch: accuracy 90, but the wrong unlock -/

/-- C1, amended and generalized: for every completed 10-question standard
batch with score 9 (grade string "Grade 10") and any prior progress row,
the computed accuracy is 90.0 and the batch-derived phase label is
BALANCED; `update_phase_progress` is therefore called with phase BALANCED,
so the row afterwards has `unlocked_exam = true` and
`current_phase = "EXAM_BIASED"`, while `unlocked_balanced` merely keeps
its prior value (false for a fresh row) — not the claimed
`unlocked_balanced = true` / `current_phase = BALANCED`. -/
theorem c1_amended (existing : Option Progress) (uid : Nat) (s : QuizState)
    (hmode : s.mode = none) (hlen : s.questions.length = 10)
    (hscore : s.score = 9) (hgrade : s.grade = "Grade 10") :
    (show_quiz_summary existing uid (some s)).accuracy? = some 90 ∧
    (show_quiz_summary existing uid (some s)).currPhase? = some "BALANCED" ∧
    ((show_quiz_summary existing uid (some s)).progress?).map
      Progress.unlocked_exam = some true ∧
    ((show_quiz_summary existing uid (some s)).progress?).map
      Progress.unlocked_balanced =
      some ((existing.map Progress.unlocked_balanced).getD false) ∧
    ((show_quiz_summary existing uid (some s)).progress?).map
      Progress.current_phase = some "EXAM_BIASED" := by
  unfold show_quiz_summary
  dsimp only
  rw [hmode, hlen, hscore, hgrade]
  rw [if_neg (by simp)]
  rw [if_neg (by decide)]
  rw [if_neg (by norm_num), if_pos (by norm_num)]
  rw [show gradeForSummary "Grade 10" = some 10 from rfl]
  dsimp only
  cases existing with
  | none =>
    norm_num [update_phase_progress, PHASE_UNLOCK_THRESHOLD,
      SummaryOutcome.accuracy?, SummaryOutcome.currPhase?,
      SummaryOutcome.progress?]
    rw [if_neg (show ("BALANCED" : String) ≠ "BASELINE" by decide)]
    norm_num
  | some e =>
    norm_num [update_phase_progress, PHASE_UNLOCK_THRESHOLD,
      SummaryOutcome.accuracy?, SummaryOutcome.currPhase?,
      SummaryOutcome.progress?]
    rw [if_neg (show ("BALANCED" : String) ≠ "BASELINE" by decide)]
    norm_num

/-- C1 counterexample: a user completes a fresh 10-question STANDARD batch
with 9 correct and 1 incorrect (accuracy 90.0, as claimed), but the unit's
ProgressRecord afterwards has `unlocked_balanced = false` and
`current_phase = "EXAM_BIASED"` — refuting `unlocked_balanced = true` and
`current_phase = BALANCED`. -/
theorem c1_counterexample :
    (show_quiz_summary none 1 (some c1State)).accuracy? = some 90 ∧
    ((show_quiz_summary none 1 (some c1State)).progress?).map
      Progress.unlocked_balanced = some false ∧
    ((show_quiz_summary none 1 (some c1State)).progress?).map
      Progress.current_phase = some "EXAM_BIASED" := by
  unfold show_quiz_summary
  dsimp only
  rw [show c1State.mode = none from rfl,
      show c1State.questions.length = 10 from rfl,
      show c1State.score = 9 from rfl,
      show c1State.grade = "Grade 10" from rfl]
  rw [if_neg (by simp)]
  rw [if_neg (by decide)]
  rw [if_neg (by norm_num), if_pos (by norm_num)]
  rw [show gradeForSummary "Grade 10" = some 10 from rfl]
  dsimp only
  norm_num [update_phase_progress, PHASE_UNLOCK_THRESHOLD,
    SummaryOutcome.accuracy?, SummaryOutcome.progress?]
  rw [if_neg (show ("BALANCED" : String) ≠ "BASELINE" by decide)]
  norm_num

/-! ## Claim C3 — XP totals per batch -/

theorem handle_answer_selection_xp (s : QuizState) (sel : String)
    (a : StdAnswer) (h : handle_answer_selection (some s) sel =
      StdOutcome.answered a) :
    a.xp = if a.attempt_correct then 10 else 0 := by
  unfold handle_answer_selection at h
  dsimp only at h
  repeat' split at h
  all_goals cases h
  all_goals simp_all

theorem handle_game_answer_xp (s : QuizState) (sel : String) (now : ℚ)
    (m : String) (g : GameAnswer) (hm : s.mode = some m)
    (h : handle_game_answer (some s) sel now = GameOutcome.done g) :
    g.xp = (if g.correct then (if m = "SURVIVAL" then 20 else 15) else 0) ∧
    g.persisted.mode = some m := by
  unfold handle_game_answer at h
  dsimp only at h
  rw [hm] at h
  dsimp only at h
  repeat' split at h
  all_goals cases h
  all_goals exact ⟨by simp_all, by first | rfl | exact hm⟩

theorem runStandard_xp (answers : List String) :
    ∀ (s sf : QuizState) (xp c : Nat),
      runStandard s answers = some (sf, xp, c) → xp = 10 * c := by
  induction answers with
  | nil =>
    intro s sf xp c h
    unfold runStandard at h
    simp only [Option.some.injEq, Prod.mk.injEq] at h
    omega
  | cons a rest ih =>
    intro s sf xp c h
    unfold runStandard at h
    cases hh : handle_answer_selection (some s) a with
    | noop => rw [hh] at h; exact absurd h (by simp)
    | raised => rw [hh] at h; exact absurd h (by simp)
    | toGame => rw [hh] at h; exact absurd h (by simp)
    | answered r =>
      rw [hh] at h
      dsimp only [next_question, Option.map] at h
      cases hrun : runStandard
          { r.state with current_index := r.state.current_index + 1 } rest with
      | none => rw [hrun] at h; exact absurd h (by simp)
      | some res =>
        rw [hrun] at h
        obtain ⟨sf2, xp2, c2⟩ := res
        simp only [Option.some.injEq, Prod.mk.injEq] at h
        have hxp2 := ih _ sf2 xp2 c2 hrun
        have hr := handle_answer_selection_xp s a r hh
        obtain ⟨-, hxp, hc⟩ := h
        cases hac : r.attempt_correct <;> rw [hac] at hr hc <;>
          simp at hr hc <;> omega

theorem runGame_xp (steps : List (ℚ × String)) :
    ∀ (s : QuizState) (r : RunGameResult) (m : String),
      s.mode = some m → runGame s steps = some r →
      r.xpTotal = (if m = "SURVIVAL" then 20 else 15) * r.corrects := by
  induction steps with
  | nil =>
    intro s r m hm h
    unfold runGame at h
    simp only [Option.some.injEq] at h
    subst h
    simp [RunGameResult.xpTotal, RunGameResult.corrects]
  | cons step rest ih =>
    intro s r m hm h
    obtain ⟨t, a⟩ := step
    unfold runGame at h
    cases hh : handle_game_answer (some s) a t with
    | noop => rw [hh] at h; exact absurd h (by simp)
    | raised => rw [hh] at h; exact absurd h (by simp)
    | done g =>
      rw [hh] at h
      dsimp only at h
      obtain ⟨hxp, hmode⟩ := handle_game_answer_xp s a t m g hm hh
      cases hstep : g.step with
      | summary reason =>
        rw [hstep] at h
        simp only [Option.some.injEq] at h
        subst h
        simp only [RunGameResult.xpTotal, RunGameResult.corrects]
        cases hgc : g.correct <;> rw [hgc] at hxp <;> simp at hxp <;>
          simp [hxp]
      | next =>
        rw [hstep] at h
        cases hrun : runGame g.persisted rest with
        | none => rw [hrun] at h; exact absurd h (by simp)
        | some res =>
          rw [hrun] at h
          have hres := ih g.persisted res m hmode hrun
          cases res with
          | ongoing sf xp2 c2 =>
            simp only [Option.some.injEq] at h
            subst h
            simp only [RunGameResult.xpTotal, RunGameResult.corrects] at hres ⊢
            cases hgc : g.correct <;> rw [hgc] at hxp <;> simp at hxp <;>
              simp [hxp, hres, Nat.mul_add, Nat.mul_one] <;>
              (try (split_ifs <;> omega))
          | ended sf reason xp2 c2 =>
            simp only [Option.some.injEq] at h
            subst h
            simp only [RunGameResult.xpTotal, RunGameResult.corrects] at hres ⊢
            cases hgc : g.correct <;> rw [hgc] at hxp <;> simp at hxp <;>
              simp [hxp, hres, Nat.mul_add, Nat.mul_one] <;>
              (try (split_ifs <;> omega))

/-- C3, amended: over any driven batch, the XP actually awarded through
`add_xp` is 10 per correct answer for standard quizzes (not
`floor(accuracy/10)*10`, which the summary merely displays), 15 per
correct answer for SPEEDRUN and 20 per correct answer for SURVIVAL. -/
theorem c3_amended :
    (∀ (s sf : QuizState) (answers : List String) (xp c : Nat),
      runStandard s answers = some (sf, xp, c) → xp = 10 * c) ∧
    (∀ (s : QuizState) (steps : List (ℚ × String)) (r : RunGameResult),
      s.mode = some "SPEEDRUN" → runGame s steps = some r →
      r.xpTotal = 15 * r.corrects) ∧
    (∀ (s : QuizState) (steps : List (ℚ × String)) (r : RunGameResult),
      s.mode = some "SURVIVAL" → runGame s steps = some r →
      r.xpTotal = 20 * r.corrects) := by
  refine ⟨fun s sf answers xp c h => runStandard_xp answers s sf xp c h,
    fun s steps r hm h => ?_, fun s steps r hm h => ?_⟩
  · have := runGame_xp steps s r "SPEEDRUN" hm h
    rwa [if_neg (show ("SPEEDRUN" : String) ≠ "SURVIVAL" by decide)] at this
  · have := runGame_xp steps s r "SURVIVAL" hm h
    rwa [if_pos rfl] at this

/-- C3 counterexample: a completed 4-question standard batch with 3
correct awards 10 XP per correct answer — 30 XP in total — while the
accuracy is 75.0 and `floor(accuracy/10)*10 = 70`; the claimed equality
of the award with `floor(accuracy/10)*10` fails (the latter is only the
displayed `xp_reward`). -/
theorem c3_counterexample :
    ((runStandard c3State ["A", "A", "A", "B"]).map (fun r => r.2.1)) =
      some 30 ∧
    ((runStandard c3State ["A", "A", "A", "B"]).bind
      (fun r => (show_quiz_summary none 1 (some r.1)).accuracy?)) = some 75 ∧
    ((runStandard c3State ["A", "A", "A", "B"]).bind
      (fun r => (show_quiz_summary none 1 (some r.1)).xpReward?)) = some 70 ∧
    (30 : Int) ≠ 70 := by
  have hrun : runStandard c3State ["A", "A", "A", "B"] =
      some (c3Final, 30, 3) := rfl
  refine ⟨by rw [hrun]; rfl, ?_, ?_, by decide⟩
  · rw [hrun]
    dsimp only [Option.bind]
    unfold show_quiz_summary
    dsimp only
    rw [show c3Final.mode = none from rfl,
        show c3Final.questions.length = 4 from rfl,
        show c3Final.score = 3 from rfl,
        show c3Final.grade = "Grade 9" from rfl]
    rw [if_neg (by simp), if_neg (by decide)]
    rw [if_neg (by norm_num), if_neg (by norm_num)]
    rw [show gradeForSummary "Grade 9" = some 9 from rfl]
    dsimp only
    norm_num [SummaryOutcome.accuracy?]
  · rw [hrun]
    dsimp only [Option.bind]
    unfold show_quiz_summary
    dsimp only
    rw [show c3Final.mode = none from rfl,
        show c3Final.questions.length = 4 from rfl,
        show c3Final.score = 3 from rfl,
        show c3Final.grade = "Grade 9" from rfl]
    rw [if_neg (by simp), if_neg (by decide)]
    rw [if_neg (by norm_num), if_neg (by norm_num)]
    rw [show gradeForSummary "Grade 9" = some 9 from rfl]
    dsimp only
    have hfl : ⌊((3 : ℕ) : ℚ) / ((4 : ℕ) : ℚ) * 100 / 10⌋ = 7 := by
      rw [Int.floor_eq_iff]
      norm_num
    norm_num [SummaryOutcome.xpReward?, pyIntOfRat, hfl]

/-- Witness for the amended C3: a concrete standard batch (30 = 10·3), a
SPEEDRUN run ending by timeout (0 = 15·0), and a SURVIVAL run ending on
the third answer (40 = 20·2). -/
theorem c3_amended_witness :
    (30 : Nat) = 10 * 3 ∧
    (RunGameResult.ended c3SpeedState "⏱️ Time\x27s Up!" 0 0).xpTotal =
      15 * (RunGameResult.ended c3SpeedState "⏱️ Time\x27s Up!" 0 0).corrects ∧
    (RunGameResult.ended c3SurvFinal c3SurvDeath 40 2).xpTotal =
      20 * (RunGameResult.ended c3SurvFinal c3SurvDeath 40 2).corrects := by
  have hga : handle_game_answer (some c3SpeedState) "A" 63 =
      GameOutcome.done ⟨c3SpeedState, GameStep.summary "⏱️ Time\x27s Up!",
        0, false⟩ := by
    unfold handle_game_answer
    dsimp only
    rw [show c3SpeedState.mode = some "SPEEDRUN" from rfl]
    dsimp only
    rw [if_pos ⟨rfl, by norm_num [c3SpeedState]⟩]
  have hrun : runGame c3SpeedState [(63, "A")] =
      some (RunGameResult.ended c3SpeedState "⏱️ Time\x27s Up!" 0 0) := by
    unfold runGame
    rw [hga]
    rfl
  exact ⟨c3_amended.1 c3State c3Final ["A", "A", "A", "B"] 30 3 rfl,
    c3_amended.2.1 c3SpeedState [(63, "A")] _ rfl hrun,
    c3_amended.2.2 c3SurvState [(1, "A"), (2, "A"), (3, "B")] _ rfl rfl⟩

/-- Witness for the amended C1 at the concrete completed batch with no
prior progress row. -/
theorem c1_amended_witness :
    (show_quiz_summary none 1 (some c1State)).accuracy? = some 90 ∧
    (show_quiz_summary none 1 (some c1State)).currPhase? = some "BALANCED" ∧
    ((show_quiz_summary none 1 (some c1State)).progress?).map
      Progress.unlocked_exam = some true ∧
    ((show_quiz_summary none 1 (some c1State)).progress?).map
      Progress.unlocked_balanced = some false ∧
    ((show_quiz_summary none 1 (some c1State)).progress?).map
      Progress.current_phase = some "EXAM_BIASED" :=
  c1_amended none 1 c1State rfl rfl rfl rfl

/-! ## Claim C10 — game runs and the history log -/

/-- C10 counterexample: in CHALLENGE mode the answer is processed by the
standard handler (`handle_answer_selection` diverts only SPEEDRUN and
SURVIVAL to the game handler), which appends a history entry — so a
CHALLENGE run's history does not stay empty. -/
theorem c10_counterexample :
    c10State.mode = some "CHALLENGE" ∧
    c10State.history = [] ∧
    (handle_answer_selection (some c10State) "A").history? =
      some [{ q_id := "Q0", selected := "A", correct := "A",
              is_correct := true }] :=
  ⟨rfl, rfl, rfl⟩

/-- C10, amended: `handle_game_answer` (which processes SPEEDRUN and
SURVIVAL answers) never changes the stored `history`, and every game-mode
start initializes `history = []` — so SPEEDRUN/SURVIVAL runs keep an empty
history; CHALLENGE answers, however, run through the standard handler,
which appends exactly one history entry per answer. -/
theorem c10_amended :
    (∀ (s : QuizState) (sel : String) (now : ℚ) (g : GameAnswer),
      handle_game_answer (some s) sel now = GameOutcome.done g →
      g.persisted.history = s.history) ∧
    (∀ (d : ℚ) (sc : Option String) (c : Nat) (gr : Int)
      (qs : List Question) (now : ℚ),
      (start_speedrun d sc c gr qs now).history = []) ∧
    (∀ (sc : String) (gr : Int) (qs : List Question) (now : ℚ),
      (start_survival sc gr qs now).history = []) ∧
    (∀ (subj : Option String) (gr : Int) (cid : String)
      (qs : List Question),
      (start_challenge_session subj gr cid qs).history = []) ∧
    (∀ (s : QuizState) (sel : String) (a : StdAnswer),
      s.mode = some "CHALLENGE" →
      handle_answer_selection (some s) sel = StdOutcome.answered a →
      ∃ e, a.state.history = s.history ++ [e]) := by
  refine ⟨?_, fun d sc c gr qs now => rfl, fun sc gr qs now => rfl,
    fun subj gr cid qs => rfl, ?_⟩
  · intro s sel now g h
    unfold handle_game_answer at h
    dsimp only at h
    cases hm : s.mode with
    | none => rw [hm] at h; cases h
    | some m =>
      rw [hm] at h
      dsimp only at h
      repeat' split at h
      all_goals cases h
      all_goals rfl
  · intro s sel a hm h
    unfold handle_answer_selection at h
    dsimp only at h
    rw [hm] at h
    rw [if_neg (by decide)] at h
    repeat' split at h
    all_goals cases h
    all_goals exact ⟨_, rfl⟩

/-- Witness for the amended C10 at concrete runs and answers. -/
theorem c10_amended_witness :
    c10GameG.persisted.history = c3SurvState.history ∧
    (start_speedrun 60 (some "BIO") 20 9 [] 0).history = [] ∧
    (start_survival "BIO" 9 [] 0).history = [] ∧
    (start_challenge_session none 9 "CH_1" []).history = [] ∧
    ∃ e, c10StdA.state.history = c10State.history ++ [e] :=
  ⟨c10_amended.1 c3SurvState "A" 1 c10GameG rfl,
   c10_amended.2.1 60 (some "BIO") 20 9 [] 0,
   c10_amended.2.2.1 "BIO" 9 [] 0,
   c10_amended.2.2.2.1 none 9 "CH_1" [],
   c10_amended.2.2.2.2 c10State "A" c10StdA rfl rfl⟩

end NebularCassini
